import Mathlib

/-!
Verification of the math-blocks icon scripts.

The repository consists of three Python scripts:
* `create_bond_icon.py` — renders a "bond to ten" icon (hundred grid, ten strip,
  unit square) at each dimension of a 15-entry iOS size table and writes PNGs;
* `generate_icon.py` — a near-duplicate renderer with slightly different
  geometry (different margins, no size threshold on labels, unguarded unit square);
* `resize_icons.py` — resamples a fixed source image to an 11-entry size table,
  skipping existing files except one hard-coded filename.

All Python integer arithmetic uses floor division with positive divisors, which
coincides with `Int` division `/` (`Int.ediv`) here.  An image is modelled as its
mode, its dimensions, the list of rectangles drawn on it (in drawing order) and
the list of text labels drawn; drawing never changes the mode or dimensions.
Batch drivers are modelled as the trace of filesystem operations they perform.
-/

/-- A rectangle passed to `draw.rectangle` as `[x1, y1, x2, y2]`. -/
structure Rect where
  x1 : Int
  y1 : Int
  x2 : Int
  y2 : Int
  deriving DecidableEq, Repr

/-- A PIL image: mode, pixel dimensions, drawn rectangles and drawn text labels.
`Image.new('RGB', (size, size), ...)` fixes mode and dimensions; the subsequent
`ImageDraw` calls only add shapes and never alter mode or dimensions. -/
structure Icon where
  mode : String
  width : Int
  height : Int
  rects : List Rect
  labels : List String
  deriving DecidableEq, Repr

/-- Filesystem effects performed by the batch drivers. -/
inductive FSOp where
  | makedirs (path : String) (exist_ok : Bool)
  | write (path : String)
  | message (text : String)
  deriving DecidableEq, Repr

def FSOp.isWrite : FSOp → Bool
  | FSOp.write _ => true
  | _ => false

def FSOp.isMakedirs : FSOp → Bool
  | FSOp.makedirs _ _ => true
  | _ => false

namespace CreateBondIcon

/-- `ICON_SIZES` from `create_bond_icon.py` (15 entries). -/
def ICON_SIZES : List (Int × String) := [
  (20, "@1x"), (40, "@2x"), (60, "@3x"),
  (29, "@1x"), (58, "@2x"), (87, "@3x"),
  (40, "@1x"), (80, "@2x"), (120, "@3x"),
  (120, "@2x"), (180, "@3x"),
  (76, "@1x"), (152, "@2x"),
  (167, "@2x"),
  (1024, "@1x")]

/-- `margin = max(2, size // 20)` -/
def margin (size : Int) : Int := max 2 (size / 20)

/-- `content_area = size - 2 * margin` -/
def content_area (size : Int) : Int := size - 2 * margin size

/-- Font setup: `font` is non-`None` exactly when `size >= 100` and the
`ImageFont.truetype` call succeeds (`ttOk`); any failure is caught and
leaves `font = None`. -/
def fontLoaded (size : Int) (ttOk : Bool) : Bool := decide (100 ≤ size) && ttOk

/-- `block_spacing = max(2, content_area // 20)` -/
def block_spacing (size : Int) : Int := max 2 (content_area size / 20)

/-- `hundred_size = min(content_area // 3, content_area - 2 * block_spacing)` -/
def hundred_size (size : Int) : Int :=
  min (content_area size / 3) (content_area size - 2 * block_spacing size)

/-- `hundred_x = margin + (content_area - hundred_size) // 2` -/
def hundred_x (size : Int) : Int :=
  margin size + (content_area size - hundred_size size) / 2

/-- `hundred_y = margin` -/
def hundred_y (size : Int) : Int := margin size

/-- `cell_size = max(1, hundred_size // 10)` -/
def cell_size (size : Int) : Int := max 1 (hundred_size size / 10)

/-- The rectangle `[x1, y1, x1 + cell_size - 1, y1 + cell_size - 1]` for grid
cell `(row, col)` of the hundred block. -/
def cell_rect (size : Int) (row col : Nat) : Rect :=
  ⟨hundred_x size + (col : Int) * cell_size size,
   hundred_y size + (row : Int) * cell_size size,
   hundred_x size + (col : Int) * cell_size size + cell_size size - 1,
   hundred_y size + (row : Int) * cell_size size + cell_size size - 1⟩

/-- One iteration of the hundred-grid loop body: draw the cell only when
`cell_size >= 1` and `x2 > x1 and y2 > y1`. -/
def cell_opt (size : Int) (row col : Nat) : Option Rect :=
  if 1 ≤ cell_size size then
    if (cell_rect size row col).x1 < (cell_rect size row col).x2 ∧
        (cell_rect size row col).y1 < (cell_rect size row col).y2 then
      some (cell_rect size row col)
    else none
  else none

/-- The hundred-block cells actually drawn: the 10×10 loop runs only under
`if hundred_size > 10`. -/
def hundredRects (size : Int) : List Rect :=
  if 10 < hundred_size size then
    (List.range 10).flatMap (fun row => (List.range 10).filterMap (fun col => cell_opt size row col))
  else []

/-- `ten_y = hundred_y + hundred_size + block_spacing` -/
def ten_y (size : Int) : Int := hundred_y size + hundred_size size + block_spacing size

/-- `ten_width = min(content_area * 3 // 4, hundred_size)` -/
def ten_width (size : Int) : Int := min (content_area size * 3 / 4) (hundred_size size)

/-- `ten_height = max(2, content_area // 15)` -/
def ten_height (size : Int) : Int := max 2 (content_area size / 15)

/-- `ten_x = margin + (content_area - ten_width) // 2` -/
def ten_x (size : Int) : Int := margin size + (content_area size - ten_width size) / 2

/-- `unit_width = max(1, ten_width // 10)` -/
def unit_width (size : Int) : Int := max 1 (ten_width size / 10)

/-- The rectangle `[x1, ten_y, x1 + unit_width - 1, ten_y + ten_height]` for
cell `i` of the ten strip. -/
def ten_rect (size : Int) (i : Nat) : Rect :=
  ⟨ten_x size + (i : Int) * unit_width size,
   ten_y size,
   ten_x size + (i : Int) * unit_width size + unit_width size - 1,
   ten_y size + ten_height size⟩

/-- One iteration of the ten-strip loop body: draw only when `unit_width >= 1`
and `x2 > x1 and y2 > y1`. -/
def ten_opt (size : Int) (i : Nat) : Option Rect :=
  if 1 ≤ unit_width size then
    if (ten_rect size i).x1 < (ten_rect size i).x2 ∧
        (ten_rect size i).y1 < (ten_rect size i).y2 then
      some (ten_rect size i)
    else none
  else none

/-- The ten-strip cells actually drawn: the loop runs only under
`if ten_width > 10 and ten_height > 0`. -/
def tenRects (size : Int) : List Rect :=
  if 10 < ten_width size ∧ 0 < ten_height size then
    (List.range 10).filterMap (fun i => ten_opt size i)
  else []

/-- `unit_y = ten_y + ten_height + block_spacing` -/
def unit_y (size : Int) : Int := ten_y size + ten_height size + block_spacing size

/-- `unit_size = max(4, min(content_area // 8, hundred_size // 4))` -/
def unit_size (size : Int) : Int :=
  max 4 (min (content_area size / 8) (hundred_size size / 4))

/-- `unit_x = margin + (content_area - unit_size) // 2` -/
def unit_x (size : Int) : Int := margin size + (content_area size - unit_size size) / 2

/-- The unit cube rectangle `[unit_x, unit_y, unit_x + unit_size, unit_y + unit_size]`. -/
def unit_rect (size : Int) : Rect :=
  ⟨unit_x size, unit_y size, unit_x size + unit_size size, unit_y size + unit_size size⟩

/-- The unit cube is drawn under `if unit_size > 2`. -/
def unitRects (size : Int) : List Rect :=
  if 2 < unit_size size then [unit_rect size] else []

/-- The decorative rounded border `[1, 1, size-2, size-2]`, drawn under
`if size >= 120`. -/
def borderRects (size : Int) : List Rect :=
  if 120 ≤ size then [⟨1, 1, size - 2, size - 2⟩] else []

/-- All rectangles drawn by `create_bond_to_ten_icon`, in drawing order. -/
def rectsDrawn (size : Int) : List Rect :=
  hundredRects size ++ tenRects size ++ unitRects size ++ borderRects size

/-- The text labels drawn.  Each label is guarded by its block's geometry guard
and by `if font and size >= 60`. -/
def labels (size : Int) (ttOk : Bool) : List String :=
  (if 10 < hundred_size size ∧ (fontLoaded size ttOk = true ∧ 60 ≤ size) then ["100"] else []) ++
  (if (10 < ten_width size ∧ 0 < ten_height size) ∧ (fontLoaded size ttOk = true ∧ 60 ≤ size) then ["10"] else []) ++
  (if 2 < unit_size size ∧ (fontLoaded size ttOk = true ∧ 60 ≤ size) then ["1"] else [])

/-- `create_bond_to_ten_icon(size)` from `create_bond_icon.py`. -/
def create_bond_to_ten_icon (size : Int) (ttOk : Bool) : Icon :=
  { mode := "RGB", width := size, height := size,
    rects := rectsDrawn size, labels := labels size ttOk }

/-- Base size computed from the scale inside `generate_ios_icons`:
`size // 2` for `@2x`, `size // 3` for `@3x`, else `size`. -/
def base_size (size : Int) (scale : String) : Int :=
  if scale = "@2x" then size / 2
  else if scale = "@3x" then size / 3
  else size

/-- The filename chain of `generate_ios_icons` (`create_bond_icon.py`). -/
def iconFilename (size : Int) (scale : String) : String :=
  if size = 1024 then "Icon-App-1024x1024@1x.png"
  else if base_size size scale = 20 then "Icon-App-20x20" ++ scale ++ ".png"
  else if base_size size scale = 29 then "Icon-App-29x29" ++ scale ++ ".png"
  else if base_size size scale = 40 then "Icon-App-40x40" ++ scale ++ ".png"
  else if base_size size scale = 60 then "Icon-App-60x60" ++ scale ++ ".png"
  else if base_size size scale = 76 then "Icon-App-76x76" ++ scale ++ ".png"
  else if size = 167 then "Icon-App-83.5x83.5@2x.png"
  else "Icon-App-" ++ toString size ++ "x" ++ toString size ++ ".png"

/-- The output directory of `generate_ios_icons`. -/
def icon_dir : String := "ios/Runner/Assets.xcassets/AppIcon.appiconset"

/-- Filesystem trace of `generate_ios_icons`: one idempotent `os.makedirs`
followed by one PNG write per table entry. -/
def generate_ios_icons_trace : List FSOp :=
  FSOp.makedirs icon_dir true ::
    ICON_SIZES.map (fun p => FSOp.write (icon_dir ++ "/" ++ iconFilename p.1 p.2))

end CreateBondIcon

namespace GenerateIcon

/-- `ICON_SIZES` from `generate_icon.py` (identical 15 entries). -/
def ICON_SIZES : List (Int × String) := [
  (20, "@1x"), (40, "@2x"), (60, "@3x"),
  (29, "@1x"), (58, "@2x"), (87, "@3x"),
  (40, "@1x"), (80, "@2x"), (120, "@3x"),
  (120, "@2x"), (180, "@3x"),
  (76, "@1x"), (152, "@2x"),
  (167, "@2x"),
  (1024, "@1x")]

/-- `margin = size // 12` -/
def margin (size : Int) : Int := size / 12

/-- `content_size = size - 2 * margin` -/
def content_size (size : Int) : Int := size - 2 * margin size

/-- Font setup: `ImageFont.truetype` (`ttOk`), falling back to
`ImageFont.load_default()` (`defOk`); `font` is non-`None` when either succeeds.
There is no size condition. -/
def fontLoaded (ttOk defOk : Bool) : Bool := ttOk || defOk

/-- `hundred_size = content_size // 3` -/
def hundred_size (size : Int) : Int := content_size size / 3

/-- `hundred_x = margin + (content_size - hundred_size) // 2` -/
def hundred_x (size : Int) : Int :=
  margin size + (content_size size - hundred_size size) / 2

/-- `hundred_y = margin` -/
def hundred_y (size : Int) : Int := margin size

/-- `cell_size = max(1, hundred_size // 10)` -/
def cell_size (size : Int) : Int := max 1 (hundred_size size / 10)

/-- The rectangle for grid cell `(row, col)` of the hundred block. -/
def cell_rect (size : Int) (row col : Nat) : Rect :=
  ⟨hundred_x size + (col : Int) * cell_size size,
   hundred_y size + (row : Int) * cell_size size,
   hundred_x size + (col : Int) * cell_size size + cell_size size - 1,
   hundred_y size + (row : Int) * cell_size size + cell_size size - 1⟩

/-- One iteration of the hundred-grid loop body: draw only when
`cell_x2 > cell_x and cell_y2 > cell_y`.  There is no outer guard. -/
def cell_opt (size : Int) (row col : Nat) : Option Rect :=
  if (cell_rect size row col).x1 < (cell_rect size row col).x2 ∧
      (cell_rect size row col).y1 < (cell_rect size row col).y2 then
    some (cell_rect size row col)
  else none

/-- The hundred-block cells actually drawn. -/
def hundredRects (size : Int) : List Rect :=
  (List.range 10).flatMap (fun row => (List.range 10).filterMap (fun col => cell_opt size row col))

/-- `ten_width = content_size // 2` -/
def ten_width (size : Int) : Int := content_size size / 2

/-- `ten_height = content_size // 12` -/
def ten_height (size : Int) : Int := content_size size / 12

/-- `ten_x = margin` -/
def ten_x (size : Int) : Int := margin size

/-- `ten_y = hundred_y + hundred_size + margin` -/
def ten_y (size : Int) : Int := hundred_y size + hundred_size size + margin size

/-- `unit_width = max(1, ten_width // 10)` -/
def unit_width (size : Int) : Int := max 1 (ten_width size / 10)

/-- The rectangle for cell `i` of the ten strip. -/
def ten_rect (size : Int) (i : Nat) : Rect :=
  ⟨ten_x size + (i : Int) * unit_width size,
   ten_y size,
   ten_x size + (i : Int) * unit_width size + unit_width size - 1,
   ten_y size + ten_height size⟩

/-- One iteration of the ten-strip loop body: draw only when
`unit_x2 > unit_x and unit_y2 > ten_y`.  There is no outer guard. -/
def ten_opt (size : Int) (i : Nat) : Option Rect :=
  if (ten_rect size i).x1 < (ten_rect size i).x2 ∧
      (ten_rect size i).y1 < (ten_rect size i).y2 then
    some (ten_rect size i)
  else none

/-- The ten-strip cells actually drawn. -/
def tenRects (size : Int) : List Rect :=
  (List.range 10).filterMap (fun i => ten_opt size i)

/-- `unit_size = content_size // 8` -/
def unit_size (size : Int) : Int := content_size size / 8

/-- `unit_x = margin + content_size - unit_size` -/
def unit_x (size : Int) : Int := margin size + content_size size - unit_size size

/-- `unit_y = ten_y + ten_height + margin // 2` -/
def unit_y (size : Int) : Int := ten_y size + ten_height size + margin size / 2

/-- The unit square rectangle, drawn unconditionally (no guard in the source). -/
def unit_rect (size : Int) : Rect :=
  ⟨unit_x size, unit_y size, unit_x size + unit_size size, unit_y size + unit_size size⟩

/-- The decorative rounded border `[2, 2, size-3, size-3]`, drawn under
`if size >= 100`. -/
def borderRects (size : Int) : List Rect :=
  if 100 ≤ size then [⟨2, 2, size - 3, size - 3⟩] else []

/-- All rectangles drawn by `create_bond_to_ten_icon`, in drawing order.
The unit square is always present. -/
def rectsDrawn (size : Int) : List Rect :=
  hundredRects size ++ tenRects size ++ [unit_rect size] ++ borderRects size

/-- The text labels drawn: each of `"100"`, `"10"`, `"1"` is guarded only by
`if font:` — there is no dimension threshold. -/
def labels (ttOk defOk : Bool) : List String :=
  (if fontLoaded ttOk defOk = true then ["100"] else []) ++
  (if fontLoaded ttOk defOk = true then ["10"] else []) ++
  (if fontLoaded ttOk defOk = true then ["1"] else [])

/-- `create_bond_to_ten_icon(size)` from `generate_icon.py`. -/
def create_bond_to_ten_icon (size : Int) (ttOk defOk : Bool) : Icon :=
  { mode := "RGB", width := size, height := size,
    rects := rectsDrawn size, labels := labels ttOk defOk }

/-- Base size via the dict lookup `{"@1x": size, "@2x": size // 2, "@3x": size // 3}.get(scale, size)`. -/
def base_size (size : Int) (scale : String) : Int :=
  if scale = "@1x" then size
  else if scale = "@2x" then size / 2
  else if scale = "@3x" then size / 3
  else size

/-- The filename chain of `generate_ios_icons` (`generate_icon.py`). -/
def iconFilename (size : Int) (scale : String) : String :=
  if size = 1024 then "Icon-App-1024x1024@1x.png"
  else if base_size size scale = 20 then "Icon-App-20x20" ++ scale ++ ".png"
  else if base_size size scale = 29 then "Icon-App-29x29" ++ scale ++ ".png"
  else if base_size size scale = 40 then "Icon-App-40x40" ++ scale ++ ".png"
  else if base_size size scale = 60 then "Icon-App-60x60" ++ scale ++ ".png"
  else if base_size size scale = 76 then "Icon-App-76x76" ++ scale ++ ".png"
  else if size = 167 then "Icon-App-83.5x83.5@2x.png"
  else "Icon-App-" ++ toString size ++ "x" ++ toString size ++ ".png"

/-- The output directory of `generate_ios_icons`. -/
def icon_dir : String := "ios/Runner/Assets.xcassets/AppIcon.appiconset"

/-- Filesystem trace of `generate_ios_icons`: one idempotent `os.makedirs`
followed by one PNG write per table entry. -/
def generate_ios_icons_trace : List FSOp :=
  FSOp.makedirs icon_dir true ::
    ICON_SIZES.map (fun p => FSOp.write (icon_dir ++ "/" ++ iconFilename p.1 p.2))

end GenerateIcon

namespace ResizeIcons

/-- `ICON_SIZES` from `resize_icons.py`: `(target pixel size, target filename)`. -/
def ICON_SIZES : List (Int × String) := [
  (40, "Icon-App-20x20@2x.png"),
  (60, "Icon-App-20x20@3x.png"),
  (29, "Icon-App-29x29@1x.png"),
  (58, "Icon-App-29x29@2x.png"),
  (87, "Icon-App-29x29@3x.png"),
  (80, "Icon-App-40x40@2x.png"),
  (120, "Icon-App-40x40@3x.png"),
  (120, "Icon-App-60x60@2x.png"),
  (20, "Icon-App-20x20@1x.png"),
  (40, "Icon-App-40x40@1x.png"),
  (1024, "Icon-App-1024x1024@1x.png")]

/-- The hard-coded source image path. -/
def source_icon : String := "icon/bond_to_ten_icon_167x167.png"

/-- `target_path = f"ios/Runner/Assets.xcassets/AppIcon.appiconset/{target_filename}"` -/
def targetPath (name : String) : String :=
  "ios/Runner/Assets.xcassets/AppIcon.appiconset/" ++ name

/-- One iteration of `main`'s loop, given which paths already exist (`ex`):
`resize_icon` (and hence a write) runs only when the target is missing or the
filename is the hard-coded exception `Icon-App-60x60@2x.png`. -/
def entry_action (ex : String → Bool) (p : Int × String) : List FSOp :=
  if !ex (targetPath p.2) || p.2 == "Icon-App-60x60@2x.png" then
    [FSOp.write (targetPath p.2)]
  else []

/-- Filesystem trace of `main`: if the source icon is missing, print a
diagnostic and return before any write; otherwise run the loop.  `main` never
creates the output directory. -/
def main_trace (srcExists : Bool) (ex : String → Bool) : List FSOp :=
  if srcExists then ICON_SIZES.flatMap (entry_action ex)
  else [FSOp.message ("❌ Source icon not found: " ++ source_icon)]

end ResizeIcons

/-! ### General list helpers -/

theorem length_filterMap_all {α β : Type} (f : α → β) (l : List α) :
    (l.filterMap (fun a => some (f a))).length = l.length := by
  induction l with
  | nil => rfl
  | cons a l ih => simp [List.filterMap_cons, ih]

theorem filterMap_all_none {α β : Type} (l : List α) :
    (l.filterMap (fun _ => (none : Option β))) = [] := by
  induction l with
  | nil => rfl
  | cons a l ih => simp [List.filterMap_cons, ih]

theorem flatMap_all_nil {α β : Type} (l : List α) :
    (l.flatMap (fun _ => ([] : List β))) = [] := by
  induction l with
  | nil => rfl
  | cons a l ih => simp [List.flatMap_cons, ih]

theorem length_flatMap_const {α β : Type} (l : List α) (f : α → List β) (n : Nat)
    (h : ∀ a ∈ l, (f a).length = n) : (l.flatMap f).length = l.length * n := by
  induction l with
  | nil => simp
  | cons a l ih =>
      simp only [List.flatMap_cons, List.length_append, List.length_cons]
      rw [h a (List.mem_cons_self a l), ih (fun x hx => h x (List.mem_cons_of_mem a hx))]
      ring

/-- A drawn rectangle extracted from a guarded loop body satisfies the guard that kept it
(variant with an additional outer condition). -/
theorem opt_guard {r0 r : Rect} {P : Prop} [Decidable P]
    (h : (if P then
            (if r0.x1 < r0.x2 ∧ r0.y1 < r0.y2 then some r0 else none)
          else none) = some r) :
    r.x1 < r.x2 ∧ r.y1 < r.y2 := by
  split_ifs at h with h1 h2
  · injection h with h3
    subst h3
    exact h2

/-- A drawn rectangle extracted from a guarded loop body satisfies the guard that kept it. -/
theorem opt_guard1 {r0 r : Rect}
    (h : (if r0.x1 < r0.x2 ∧ r0.y1 < r0.y2 then some r0 else none) = some r) :
    r.x1 < r.x2 ∧ r.y1 < r.y2 := by
  split_ifs at h with h2
  · injection h with h3
    subst h3
    exact h2

/-! ### Hundred-grid cell counts -/

theorem cbi_cell_opt_eq (size : Int) (row col : Nat) :
    CreateBondIcon.cell_opt size row col =
      if 2 ≤ CreateBondIcon.cell_size size then
        some (CreateBondIcon.cell_rect size row col)
      else none := by
  have h1 : 1 ≤ CreateBondIcon.cell_size size := le_max_left 1 _
  unfold CreateBondIcon.cell_opt
  rw [if_pos h1]
  by_cases h2 : 2 ≤ CreateBondIcon.cell_size size
  · rw [if_pos h2, if_pos]
    constructor <;> (simp only [CreateBondIcon.cell_rect]; omega)
  · rw [if_neg h2, if_neg]
    intro hc
    rcases hc with ⟨hx, _⟩
    simp only [CreateBondIcon.cell_rect] at hx
    omega

theorem gi_cell_opt_eq (size : Int) (row col : Nat) :
    GenerateIcon.cell_opt size row col =
      if 2 ≤ GenerateIcon.cell_size size then
        some (GenerateIcon.cell_rect size row col)
      else none := by
  unfold GenerateIcon.cell_opt
  by_cases h2 : 2 ≤ GenerateIcon.cell_size size
  · rw [if_pos h2, if_pos]
    constructor <;> (simp only [GenerateIcon.cell_rect]; omega)
  · rw [if_neg h2, if_neg]
    intro hc
    rcases hc with ⟨hx, _⟩
    simp only [GenerateIcon.cell_rect] at hx
    omega

theorem cbi_hundredRects_length (size : Int) :
    (CreateBondIcon.hundredRects size).length =
      if 2 ≤ CreateBondIcon.cell_size size then 100 else 0 := by
  by_cases h2 : 2 ≤ CreateBondIcon.cell_size size
  · have hhs : 10 < CreateBondIcon.hundred_size size := by
      unfold CreateBondIcon.cell_size at h2
      omega
    rw [if_pos h2]
    unfold CreateBondIcon.hundredRects
    rw [if_pos hhs]
    have hinner : ∀ row ∈ List.range 10,
        ((List.range 10).filterMap (fun col => CreateBondIcon.cell_opt size row col)).length
          = 10 := by
      intro row _
      have hfun : (fun col => CreateBondIcon.cell_opt size row col)
          = (fun col => some (CreateBondIcon.cell_rect size row col)) := by
        funext col
        rw [cbi_cell_opt_eq, if_pos h2]
      rw [hfun, length_filterMap_all]
      simp
    rw [length_flatMap_const _ _ 10 hinner]
    simp
  · rw [if_neg h2]
    unfold CreateBondIcon.hundredRects
    by_cases hhs : 10 < CreateBondIcon.hundred_size size
    · rw [if_pos hhs]
      have hnone : ∀ row : Nat, (fun col => CreateBondIcon.cell_opt size row col)
          = (fun _ => (none : Option Rect)) := by
        intro row
        funext col
        rw [cbi_cell_opt_eq, if_neg h2]
      simp only [hnone, filterMap_all_none, flatMap_all_nil]
      rfl
    · rw [if_neg hhs]
      rfl

theorem gi_hundredRects_length (size : Int) :
    (GenerateIcon.hundredRects size).length =
      if 2 ≤ GenerateIcon.cell_size size then 100 else 0 := by
  unfold GenerateIcon.hundredRects
  by_cases h2 : 2 ≤ GenerateIcon.cell_size size
  · rw [if_pos h2]
    have hinner : ∀ row ∈ List.range 10,
        ((List.range 10).filterMap (fun col => GenerateIcon.cell_opt size row col)).length
          = 10 := by
      intro row _
      have hfun : (fun col => GenerateIcon.cell_opt size row col)
          = (fun col => some (GenerateIcon.cell_rect size row col)) := by
        funext col
        rw [gi_cell_opt_eq, if_pos h2]
      rw [hfun, length_filterMap_all]
      simp
    rw [length_flatMap_const _ _ 10 hinner]
    simp
  · rw [if_neg h2]
    have hnone : ∀ row : Nat, (fun col => GenerateIcon.cell_opt size row col)
        = (fun _ => (none : Option Rect)) := by
      intro row
      funext col
      rw [gi_cell_opt_eq, if_neg h2]
    simp only [hnone, filterMap_all_none, flatMap_all_nil]
    rfl

/-! ### Positive-extent lemmas -/

theorem cbi_rects_pos (size : Int) :
    ∀ r ∈ CreateBondIcon.rectsDrawn size, r.x1 < r.x2 ∧ r.y1 < r.y2 := by
  intro r hr
  unfold CreateBondIcon.rectsDrawn at hr
  simp only [List.mem_append] at hr
  rcases hr with ((hr | hr) | hr) | hr
  · unfold CreateBondIcon.hundredRects at hr
    by_cases hhs : 10 < CreateBondIcon.hundred_size size
    · rw [if_pos hhs, List.mem_flatMap] at hr
      rcases hr with ⟨row, _, hr⟩
      rw [List.mem_filterMap] at hr
      rcases hr with ⟨col, _, heq⟩
      unfold CreateBondIcon.cell_opt at heq
      exact opt_guard heq
    · rw [if_neg hhs] at hr
      exact absurd hr (by simp)
  · unfold CreateBondIcon.tenRects at hr
    by_cases hts : 10 < CreateBondIcon.ten_width size ∧ 0 < CreateBondIcon.ten_height size
    · rw [if_pos hts, List.mem_filterMap] at hr
      rcases hr with ⟨i, _, heq⟩
      unfold CreateBondIcon.ten_opt at heq
      exact opt_guard heq
    · rw [if_neg hts] at hr
      exact absurd hr (by simp)
  · unfold CreateBondIcon.unitRects at hr
    by_cases hus : 2 < CreateBondIcon.unit_size size
    · rw [if_pos hus, List.mem_singleton] at hr
      subst hr
      unfold CreateBondIcon.unit_rect
      constructor <;> (simp only; omega)
    · rw [if_neg hus] at hr
      exact absurd hr (by simp)
  · unfold CreateBondIcon.borderRects at hr
    by_cases hb : 120 ≤ size
    · rw [if_pos hb, List.mem_singleton] at hr
      subst hr
      constructor <;> (simp only; omega)
    · rw [if_neg hb] at hr
      exact absurd hr (by simp)

theorem gi_guarded_rects_pos (size : Int) :
    ∀ r ∈ GenerateIcon.hundredRects size ++ GenerateIcon.tenRects size ++
        GenerateIcon.borderRects size, r.x1 < r.x2 ∧ r.y1 < r.y2 := by
  intro r hr
  simp only [List.mem_append] at hr
  rcases hr with (hr | hr) | hr
  · unfold GenerateIcon.hundredRects at hr
    rw [List.mem_flatMap] at hr
    rcases hr with ⟨row, _, hr⟩
    rw [List.mem_filterMap] at hr
    rcases hr with ⟨col, _, heq⟩
    unfold GenerateIcon.cell_opt at heq
    exact opt_guard1 heq
  · unfold GenerateIcon.tenRects at hr
    rw [List.mem_filterMap] at hr
    rcases hr with ⟨i, _, heq⟩
    unfold GenerateIcon.ten_opt at heq
    exact opt_guard1 heq
  · unfold GenerateIcon.borderRects at hr
    by_cases hb : 100 ≤ size
    · rw [if_pos hb, List.mem_singleton] at hr
      subst hr
      constructor <;> (simp only; omega)
    · rw [if_neg hb] at hr
      exact absurd hr (by simp)

/-! ### Filename-mapping lemmas -/

theorem base_size_agrees (size : Int) (scale : String) :
    GenerateIcon.base_size size scale = CreateBondIcon.base_size size scale := by
  unfold GenerateIcon.base_size CreateBondIcon.base_size
  by_cases h1 : scale = "@1x"
  · subst h1
    rw [if_pos rfl, if_neg (by decide), if_neg (by decide)]
  · rw [if_neg h1]

theorem iconFilename_agrees (size : Int) (scale : String) :
    GenerateIcon.iconFilename size scale = CreateBondIcon.iconFilename size scale := by
  unfold GenerateIcon.iconFilename CreateBondIcon.iconFilename
  rw [base_size_agrees]

/-! ### Claims -/

/-- Claim C1: for every dimension ≥ 1 (in particular every table dimension), both render
scripts' `create_bond_to_ten_icon` returns an RGB raster image whose pixel width and pixel
height both equal the requested dimension. -/
theorem c1_render_dimensions (size : Int) (ttOk defOk : Bool) (_h : 1 ≤ size) :
    (CreateBondIcon.create_bond_to_ten_icon size ttOk).mode = "RGB" ∧
    (CreateBondIcon.create_bond_to_ten_icon size ttOk).width = size ∧
    (CreateBondIcon.create_bond_to_ten_icon size ttOk).height = size ∧
    (GenerateIcon.create_bond_to_ten_icon size ttOk defOk).mode = "RGB" ∧
    (GenerateIcon.create_bond_to_ten_icon size ttOk defOk).width = size ∧
    (GenerateIcon.create_bond_to_ten_icon size ttOk defOk).height = size :=
  ⟨rfl, rfl, rfl, rfl, rfl, rfl⟩

/-- Witness for C1 at the table dimension 1024. -/
theorem c1_render_dimensions_witness :
    (CreateBondIcon.create_bond_to_ten_icon 1024 true).mode = "RGB" ∧
    (CreateBondIcon.create_bond_to_ten_icon 1024 true).width = 1024 ∧
    (CreateBondIcon.create_bond_to_ten_icon 1024 true).height = 1024 ∧
    (GenerateIcon.create_bond_to_ten_icon 1024 true true).mode = "RGB" ∧
    (GenerateIcon.create_bond_to_ten_icon 1024 true true).width = 1024 ∧
    (GenerateIcon.create_bond_to_ten_icon 1024 true true).height = 1024 :=
  c1_render_dimensions 1024 true true (by decide)

/-- Claim C2: over the 15-entry size table the filename mapping is total and injective
(the 15 produced filenames are pairwise distinct), every produced filename matches the
pattern Icon-App-(base)x(base)(scale).png, the 1024 entry maps to the fixed store filename
regardless of scale, and the two render scripts compute the same mapping on the same table. -/
theorem c2_filename_mapping :
    (CreateBondIcon.ICON_SIZES.map (fun p => CreateBondIcon.iconFilename p.1 p.2)).Nodup ∧
    CreateBondIcon.ICON_SIZES.length = 15 ∧
    (∀ p ∈ CreateBondIcon.ICON_SIZES, ∃ b s,
        CreateBondIcon.iconFilename p.1 p.2 = "Icon-App-" ++ b ++ "x" ++ b ++ s ++ ".png") ∧
    (∀ scale : String, CreateBondIcon.iconFilename 1024 scale = "Icon-App-1024x1024@1x.png") ∧
    (∀ size : Int, ∀ scale : String,
        GenerateIcon.iconFilename size scale = CreateBondIcon.iconFilename size scale) ∧
    GenerateIcon.ICON_SIZES = CreateBondIcon.ICON_SIZES := by
  refine ⟨by decide, by decide, ?_, ?_, iconFilename_agrees, by decide⟩
  · intro p hp
    fin_cases hp
    · exact ⟨"20", "@1x", by decide⟩
    · exact ⟨"20", "@2x", by decide⟩
    · exact ⟨"20", "@3x", by decide⟩
    · exact ⟨"29", "@1x", by decide⟩
    · exact ⟨"29", "@2x", by decide⟩
    · exact ⟨"29", "@3x", by decide⟩
    · exact ⟨"40", "@1x", by decide⟩
    · exact ⟨"40", "@2x", by decide⟩
    · exact ⟨"40", "@3x", by decide⟩
    · exact ⟨"60", "@2x", by decide⟩
    · exact ⟨"60", "@3x", by decide⟩
    · exact ⟨"76", "@1x", by decide⟩
    · exact ⟨"76", "@2x", by decide⟩
    · exact ⟨"83.5", "@2x", by decide⟩
    · exact ⟨"1024", "@1x", by decide⟩
  · intro scale
    unfold CreateBondIcon.iconFilename
    rw [if_pos rfl]

/-- Witness for C2 at the table entry (20, "@1x"). -/
theorem c2_filename_mapping_witness :
    ∃ b s, CreateBondIcon.iconFilename 20 ("@1x")
      = "Icon-App-" ++ b ++ "x" ++ b ++ s ++ ".png" :=
  c2_filename_mapping.2.2.1 (20, "@1x") (by decide)

/-- Claim C3 (amended): in both renderers the hundred-block step fills exactly 100 cells
(the full 10×10 grid) precisely when the computed cell size is at least 2; when the computed
cell size is 1 the per-cell extent guard `x2 > x1 and y2 > y1` rejects every cell and zero
cells are drawn; the step is total (never raises) for every integer dimension. -/
theorem c3_hundred_grid_cells (size : Int) :
    (CreateBondIcon.hundredRects size).length =
      (if 2 ≤ CreateBondIcon.cell_size size then 100 else 0) ∧
    (GenerateIcon.hundredRects size).length =
      (if 2 ≤ GenerateIcon.cell_size size then 100 else 0) :=
  ⟨cbi_hundredRects_length size, gi_hundredRects_length size⟩

/-- Witness for C3 at dimension 120, where the full grid is drawn. -/
theorem c3_hundred_grid_cells_witness :
    (CreateBondIcon.hundredRects 120).length =
      (if 2 ≤ CreateBondIcon.cell_size 120 then 100 else 0) ∧
    (GenerateIcon.hundredRects 120).length =
      (if 2 ≤ GenerateIcon.cell_size 120 then 100 else 0) :=
  c3_hundred_grid_cells 120

/-- Claim C3 is false as stated: at table dimension 40 the computed cell size is 1, i.e. at
least 1 device unit, yet the hundred-block step draws zero cells (not 100) in both render
scripts. -/
theorem c3_hundred_grid_cells_cex :
    1 ≤ CreateBondIcon.cell_size 40 ∧ (CreateBondIcon.hundredRects 40).length = 0 ∧
    1 ≤ GenerateIcon.cell_size 40 ∧ (GenerateIcon.hundredRects 40).length = 0 := by
  decide

/-- Claim C4 is false as stated: (50, "@1x") is not an entry of the size table, yet the
filename mapping of both render scripts silently produces the string Icon-App-50x50.png
(with no scale suffix) instead of failing loudly. -/
theorem c4_unmapped_cex :
    ((50 : Int), "@1x") ∉ CreateBondIcon.ICON_SIZES ∧
    CreateBondIcon.iconFilename 50 ("@1x") = "Icon-App-50x50.png" ∧
    ((50 : Int), "@1x") ∉ GenerateIcon.ICON_SIZES ∧
    GenerateIcon.iconFilename 50 ("@1x") = "Icon-App-50x50.png" := by
  decide

/-- Claim C4 (amended): for any (dimension, scale) combination that matches none of the
enumerated cases, the filename mapping does not fail; it silently falls through to the
generic string Icon-App-(size)x(size).png with no scale suffix. -/
theorem c4_unmapped_fallthrough (size : Int) (scale : String)
    (h1 : size ≠ 1024)
    (h2 : CreateBondIcon.base_size size scale ≠ 20)
    (h3 : CreateBondIcon.base_size size scale ≠ 29)
    (h4 : CreateBondIcon.base_size size scale ≠ 40)
    (h5 : CreateBondIcon.base_size size scale ≠ 60)
    (h6 : CreateBondIcon.base_size size scale ≠ 76)
    (h7 : size ≠ 167) :
    CreateBondIcon.iconFilename size scale =
      "Icon-App-" ++ toString size ++ "x" ++ toString size ++ ".png" := by
  unfold CreateBondIcon.iconFilename
  rw [if_neg h1, if_neg h2, if_neg h3, if_neg h4, if_neg h5, if_neg h6, if_neg h7]

/-- Witness for the amended C4 at the unmapped combination (50, "@1x"). -/
theorem c4_unmapped_fallthrough_witness :
    CreateBondIcon.iconFilename 50 ("@1x") =
      "Icon-App-" ++ toString (50 : Int) ++ "x" ++ toString (50 : Int) ++ ".png" :=
  c4_unmapped_fallthrough 50 ("@1x") (by decide) (by decide) (by decide) (by decide)
    (by decide) (by decide) (by decide)

/-- Claim C5 (amended): in create_bond_icon.py a block label is drawn only when a font was
loaded (which itself requires dimension ≥ 100) and the dimension is at least 60, and below 60
no label is drawn; in generate_icon.py, however, whenever a font is available all three labels
are drawn with no dimension threshold. -/
theorem c5_label_threshold :
    (∀ size : Int, ∀ ttOk : Bool, CreateBondIcon.labels size ttOk ≠ [] →
        CreateBondIcon.fontLoaded size ttOk = true ∧ 60 ≤ size) ∧
    (∀ size : Int, ∀ ttOk : Bool, size < 60 → CreateBondIcon.labels size ttOk = []) ∧
    (∀ ttOk defOk : Bool, GenerateIcon.fontLoaded ttOk defOk = true →
        GenerateIcon.labels ttOk defOk = ["100", "10", "1"]) := by
  refine ⟨?_, ?_, ?_⟩
  · intro size ttOk hne
    by_cases hf : CreateBondIcon.fontLoaded size ttOk = true ∧ 60 ≤ size
    · exact hf
    · exfalso
      apply hne
      unfold CreateBondIcon.labels
      rw [if_neg (fun hc => hf hc.2), if_neg (fun hc => hf hc.2), if_neg (fun hc => hf hc.2)]
      rfl
  · intro size ttOk hlt
    unfold CreateBondIcon.labels
    rw [if_neg (fun hc => absurd hc.2.2 (by omega)),
        if_neg (fun hc => absurd hc.2.2 (by omega)),
        if_neg (fun hc => absurd hc.2.2 (by omega))]
    rfl
  · intro ttOk defOk hf
    unfold GenerateIcon.labels
    rw [if_pos hf, if_pos hf, if_pos hf]
    rfl

/-- Witness for C5: no labels in create_bond_icon.py at dimension 40; all labels in
generate_icon.py once a font is available. -/
theorem c5_label_threshold_witness :
    CreateBondIcon.labels 40 true = [] ∧
    GenerateIcon.labels true true = ["100", "10", "1"] :=
  ⟨c5_label_threshold.2.1 40 true (by decide), c5_label_threshold.2.2 true true rfl⟩

/-- Claim C5 is false as stated: generate_icon.py at dimension 40 — below the legibility
threshold of 60 — draws all three labels when a font is available. -/
theorem c5_label_threshold_cex :
    (GenerateIcon.create_bond_to_ten_icon 40 true true).labels = ["100", "10", "1"] ∧
    (40 : Int) < 60 := by
  decide

/-- Claim C6 (amended): the guarded drawing steps (hundred-grid cells, ten-strip cells,
borders) only draw rectangles with positive width and height, and in create_bond_icon.py
every drawn rectangle has positive extents; but generate_icon.py draws its unit square with
no validation at all: it is always present and its extent equals content_size // 8 in both
axes, which rounds to zero for small dimensions. -/
theorem c6_extent_validation :
    (∀ size : Int, ∀ r ∈ CreateBondIcon.rectsDrawn size, r.x1 < r.x2 ∧ r.y1 < r.y2) ∧
    (∀ size : Int, ∀ r ∈ GenerateIcon.hundredRects size ++ GenerateIcon.tenRects size ++
        GenerateIcon.borderRects size, r.x1 < r.x2 ∧ r.y1 < r.y2) ∧
    (∀ size : Int, GenerateIcon.unit_rect size ∈ GenerateIcon.rectsDrawn size ∧
        (GenerateIcon.unit_rect size).x2 - (GenerateIcon.unit_rect size).x1 =
          GenerateIcon.unit_size size ∧
        (GenerateIcon.unit_rect size).y2 - (GenerateIcon.unit_rect size).y1 =
          GenerateIcon.unit_size size) := by
  refine ⟨cbi_rects_pos, gi_guarded_rects_pos, ?_⟩
  intro size
  refine ⟨?_, ?_, ?_⟩
  · unfold GenerateIcon.rectsDrawn
    simp
  · simp only [GenerateIcon.unit_rect]
    omega
  · simp only [GenerateIcon.unit_rect]
    omega

/-- Witness for C6: the only rectangle drawn by create_bond_icon.py at dimension 20 has
positive extents. -/
theorem c6_extent_validation_witness :
    (⟨8, 13, 12, 17⟩ : Rect) ∈ CreateBondIcon.rectsDrawn 20 ∧
    ((8 : Int) < 12 ∧ (13 : Int) < 17) :=
  ⟨by decide, c6_extent_validation.1 20 ⟨8, 13, 12, 17⟩ (by decide)⟩

/-- Claim C6 is false as stated: at dimension 7 generate_icon.py draws its unit square with
x2 = x1 — a non-positive, unchecked extent. -/
theorem c6_extent_validation_cex :
    GenerateIcon.unit_rect 7 ∈ GenerateIcon.rectsDrawn 7 ∧
    ¬((GenerateIcon.unit_rect 7).x1 < (GenerateIcon.unit_rect 7).x2) := by
  decide

/-- Claim C7 (amended): the two render drivers create the output directory idempotently
(os.makedirs with exist_ok=True) as their first filesystem operation, before any write; the
resize driver performs no directory creation at all in any environment. -/
theorem c7_output_dir_creation :
    CreateBondIcon.generate_ios_icons_trace.head? =
      some (FSOp.makedirs CreateBondIcon.icon_dir true) ∧
    GenerateIcon.generate_ios_icons_trace.head? =
      some (FSOp.makedirs GenerateIcon.icon_dir true) ∧
    (∀ op ∈ CreateBondIcon.generate_ios_icons_trace.tail, op.isWrite = true) ∧
    (∀ op ∈ GenerateIcon.generate_ios_icons_trace.tail, op.isWrite = true) ∧
    (∀ srcExists : Bool, ∀ ex : String → Bool,
        ∀ op ∈ ResizeIcons.main_trace srcExists ex, op.isMakedirs = false) := by
  refine ⟨rfl, rfl, ?_, ?_, ?_⟩
  · intro op hop
    simp only [CreateBondIcon.generate_ios_icons_trace, List.tail_cons, List.mem_map] at hop
    rcases hop with ⟨p, _, rfl⟩
    rfl
  · intro op hop
    simp only [GenerateIcon.generate_ios_icons_trace, List.tail_cons, List.mem_map] at hop
    rcases hop with ⟨p, _, rfl⟩
    rfl
  · intro srcExists ex op hop
    unfold ResizeIcons.main_trace at hop
    cases srcExists with
    | false =>
        simp only [Bool.false_eq_true, if_false, List.mem_singleton] at hop
        subst hop
        rfl
    | true =>
        simp only [if_true, List.mem_flatMap] at hop
        rcases hop with ⟨p, _, hop⟩
        unfold ResizeIcons.entry_action at hop
        split_ifs at hop
        · rw [List.mem_singleton] at hop
          subst hop
          rfl
        · exact absurd hop (by simp)

/-- Witness for C7: a concrete write following the makedirs in the render trace, and a
concrete resize-trace operation that is not a makedirs. -/
theorem c7_output_dir_creation_witness :
    (FSOp.write (CreateBondIcon.icon_dir ++ "/" ++
        CreateBondIcon.iconFilename 20 ("@1x"))).isWrite = true ∧
    (FSOp.write (ResizeIcons.targetPath ("Icon-App-20x20@2x.png"))).isMakedirs = false :=
  ⟨c7_output_dir_creation.2.2.1
      (FSOp.write (CreateBondIcon.icon_dir ++ "/" ++ CreateBondIcon.iconFilename 20 ("@1x")))
      (by decide),
   c7_output_dir_creation.2.2.2.2 true (fun _ => false)
      (FSOp.write (ResizeIcons.targetPath ("Icon-App-20x20@2x.png"))) (by decide)⟩

/-- Claim C7 is false as stated: with the source present and an empty output directory, the
resize driver writes files while its trace contains no directory-creation operation. -/
theorem c7_output_dir_creation_cex :
    (ResizeIcons.main_trace true (fun _ => false)).all (fun op => !op.isMakedirs) = true ∧
    FSOp.write (ResizeIcons.targetPath ("Icon-App-20x20@2x.png")) ∈
      ResizeIcons.main_trace true (fun _ => false) := by
  decide

/-- Claim C8: when the designated source image is absent, the resize driver's whole trace is
the single diagnostic message — it returns before the loop, attempting zero writes. -/
theorem c8_missing_source_aborts (ex : String → Bool) :
    ResizeIcons.main_trace false ex =
      [FSOp.message ("❌ Source icon not found: " ++ ResizeIcons.source_icon)] ∧
    (ResizeIcons.main_trace false ex).all (fun op => !op.isWrite) = true :=
  ⟨rfl, rfl⟩

/-- Witness for C8 in a concrete environment. -/
theorem c8_missing_source_aborts_witness :
    ResizeIcons.main_trace false (fun _ => true) =
      [FSOp.message ("❌ Source icon not found: " ++ ResizeIcons.source_icon)] ∧
    (ResizeIcons.main_trace false (fun _ => true)).all (fun op => !op.isWrite) = true :=
  c8_missing_source_aborts (fun _ => true)

/-- Claim C9: for every resize-table entry whose target file already exists the driver
performs no write for that entry, with the single exception of the hard-coded filename
Icon-App-60x60@2x.png, which is written (regenerated) on every run. -/
theorem c9_skip_existing (ex : String → Bool) (p : Int × String)
    (_hp : p ∈ ResizeIcons.ICON_SIZES) :
    (ex (ResizeIcons.targetPath p.2) = true → p.2 ≠ "Icon-App-60x60@2x.png" →
        ResizeIcons.entry_action ex p = []) ∧
    (p.2 = "Icon-App-60x60@2x.png" →
        ResizeIcons.entry_action ex p = [FSOp.write (ResizeIcons.targetPath p.2)]) := by
  constructor
  · intro hex hne
    have hcond : (!ex (ResizeIcons.targetPath p.2) ||
        (p.2 == "Icon-App-60x60@2x.png")) = false := by
      simp [hex, hne]
    unfold ResizeIcons.entry_action
    simp [hcond]
  · intro he
    have hcond : (!ex (ResizeIcons.targetPath p.2) ||
        (p.2 == "Icon-App-60x60@2x.png")) = true := by
      simp [he]
    unfold ResizeIcons.entry_action
    simp [hcond]

/-- Witness for C9: with every target present, the 29x29 entry is skipped while the
hard-coded 60x60@2x entry is still written. -/
theorem c9_skip_existing_witness :
    ResizeIcons.entry_action (fun _ => true) (29, "Icon-App-29x29@1x.png") = [] ∧
    ResizeIcons.entry_action (fun _ => true) (120, "Icon-App-60x60@2x.png") =
      [FSOp.write (ResizeIcons.targetPath ("Icon-App-60x60@2x.png"))] :=
  ⟨(c9_skip_existing (fun _ => true) (29, "Icon-App-29x29@1x.png") (by decide)).1
      rfl (by decide),
   (c9_skip_existing (fun _ => true) (120, "Icon-App-60x60@2x.png") (by decide)).2 rfl⟩

/-- Claim C10: in create_bond_icon.py, unit_size = max(4, min(content_area // 8,
hundred_size // 4)) is at least 4 for every dimension ≥ 1, so the guard unit_size > 2 is
always satisfied and the single green unit square is always drawn — even at dimension 1,
where the hundred and ten blocks are skipped and the unit square's rectangle extends beyond
the 1×1 image bounds on both sides. -/
theorem c10_unit_always_drawn (size : Int) (_h : 1 ≤ size) :
    4 ≤ CreateBondIcon.unit_size size ∧
    CreateBondIcon.unitRects size = [CreateBondIcon.unit_rect size] ∧
    CreateBondIcon.hundredRects 1 = [] ∧
    CreateBondIcon.tenRects 1 = [] ∧
    CreateBondIcon.unitRects 1 = [CreateBondIcon.unit_rect 1] ∧
    (CreateBondIcon.unit_rect 1).x1 < 0 ∧
    1 - 1 < (CreateBondIcon.unit_rect 1).x2 := by
  have h4 : 4 ≤ CreateBondIcon.unit_size size := by
    unfold CreateBondIcon.unit_size
    omega
  refine ⟨h4, ?_, by decide, by decide, by decide, by decide, by decide⟩
  unfold CreateBondIcon.unitRects
  rw [if_pos (by omega)]

/-- Witness for C10 at dimension 1. -/
theorem c10_unit_always_drawn_witness :
    4 ≤ CreateBondIcon.unit_size 1 ∧
    CreateBondIcon.unitRects 1 = [CreateBondIcon.unit_rect 1] ∧
    CreateBondIcon.hundredRects 1 = [] ∧
    CreateBondIcon.tenRects 1 = [] ∧
    CreateBondIcon.unitRects 1 = [CreateBondIcon.unit_rect 1] ∧
    (CreateBondIcon.unit_rect 1).x1 < 0 ∧
    1 - 1 < (CreateBondIcon.unit_rect 1).x2 :=
  c10_unit_always_drawn 1 (by decide)
